import Mathlib

/-!
Verification of the `CheckPrice` token-price resolver (src/src/index.ts).

Modelling conventions:
* Chain reads (ethers `Contract` method calls) are an environment `Env` of
  `Except String` results: `.error e` models a rejected promise carrying the
  stringified cause `e`, `.ok v` a decoded result.
* JS `number` is modelled by `JsNum`: finite values are exact rationals
  (the spec accepts float64 mantissa rounding as an approximation, so the
  `Number(...)` conversions and `formatUnits`/`parseFloat` round-trips are
  taken exact), plus the IEEE special values `inf`, `ninf`, `nan`, with
  IEEE division/multiplication rules (signed zero is not modelled; none of
  the verified code paths distinguishes -0 from +0).
* JS string truthiness (`if (v2Pool)`, `!pair`) is modelled exactly: `null`
  and the empty string are falsy, every other string truthy.
* Error wrapping `new Error(prefix + error)` is modelled as prepending the
  prefix to the cause message.
-/

namespace TokenPrice

/-- JS `number`: exact rationals for finite values plus IEEE specials. -/
inductive JsNum where
  | fin : ℚ → JsNum
  | inf : JsNum
  | ninf : JsNum
  | nan : JsNum
deriving DecidableEq, Repr

/-- IEEE-style division, as JS `/` (signed zero not modelled). -/
def JsNum.div : JsNum → JsNum → JsNum
  | .nan, _ => .nan
  | _, .nan => .nan
  | .fin a, .fin b =>
    if b = 0 then (if 0 < a then .inf else if a < 0 then .ninf else .nan)
    else .fin (a / b)
  | .fin _, .inf => .fin 0
  | .fin _, .ninf => .fin 0
  | .inf, .fin b => if 0 ≤ b then .inf else .ninf
  | .ninf, .fin b => if 0 ≤ b then .ninf else .inf
  | .inf, _ => .nan
  | .ninf, _ => .nan

/-- IEEE-style multiplication, as JS `*`. -/
def JsNum.mul : JsNum → JsNum → JsNum
  | .nan, _ => .nan
  | _, .nan => .nan
  | .fin a, .fin b => .fin (a * b)
  | .inf, .fin b => if 0 < b then .inf else if b < 0 then .ninf else .nan
  | .fin a, .inf => if 0 < a then .inf else if a < 0 then .ninf else .nan
  | .ninf, .fin b => if 0 < b then .ninf else if b < 0 then .inf else .nan
  | .fin a, .ninf => if 0 < a then .ninf else if a < 0 then .inf else .nan
  | .inf, .inf => .inf
  | .inf, .ninf => .ninf
  | .ninf, .inf => .ninf
  | .ninf, .ninf => .inf

/-- A `JsNum` is finite iff it is neither an infinity nor `NaN`. -/
def JsNum.isFinite : JsNum → Bool
  | .fin _ => true
  | _ => false

/-- ethers `ZeroAddress` sentinel. -/
def ZeroAddress : String := "0x0000000000000000000000000000000000000000"

/-- Constructor constant `this.WETH_ADDRESS` (reference asset, lower-case). -/
def WETH_ADDRESS : String := "0xc02aaa39b223fe8d0a0e5c4f27ead9083c756cc2"

/-- Constructor constant `this.feeTiers = [500, 3000, 10000]`. -/
def defaultFeeTiers : List Nat := [500, 3000, 10000]

/-- The on-chain read capability (ChainReader): each field models one
contract method invoked by `CheckPrice`, keyed by its call arguments.
`.error` is a rejected promise, `.ok` a decoded result. -/
structure Env where
  /-- V2 `factory.getPair(tokenA, tokenB)` : an address string. -/
  getPair : String → String → Except String String
  /-- V3 `factory.getPool(tokenA, tokenB, fee)` : an address string. -/
  getPool : String → String → Nat → Except String String
  /-- Chainlink `oracle.latestAnswer()` : an `int256`. -/
  latestAnswer : Except String Int
  /-- V2 `pool.token0()` for a given pool address. -/
  token0 : String → Except String String
  /-- V2 `pool.getReserves()` : `(reserve0, reserve1)`, unsigned. -/
  getReserves : String → Except String (Nat × Nat)
  /-- V3 `pool.slot0().sqrtPriceX96` : a `uint160`. -/
  slot0 : String → Except String Nat

/-- `getEthUsdPrice()`: `parseFloat(formatUnits(await oracle.latestAnswer(), 8))`,
i.e. the raw answer scaled down by `10^8` (taken exact, see module header);
a rejection is wrapped with the oracle failure prefix. -/
def getEthUsdPrice (env : Env) : Except String ℚ :=
  match env.latestAnswer with
  | .error e => .error ("Failed to get ETH/USD price from Chainlink oracle.\n" ++ e)
  | .ok price => .ok ((price : ℚ) / 10 ^ 8)

/-- `getV2Pool(token)`: `factory.getPair(token, WETH)`, mapping the zero
address to `null`; a rejection is wrapped with the V2 lookup prefix. -/
def getV2Pool (env : Env) (token : String) : Except String (Option String) :=
  match env.getPair token WETH_ADDRESS with
  | .error e => .error ("Failed to get Uniswap V2 pool address.\n" ++ e)
  | .ok pool => if pool = ZeroAddress then .ok none else .ok (some pool)

/-- `getV2PriceWeth(pool_address)`: reads `token0` and the reserves
(`Promise.all`: on double failure JS surfaces the first listed rejection,
here `token0`), selects the reserve sides by `token0 !== this.WETH_ADDRESS`
(exact string inequality) and divides `Number(reserve_token) / Number(reserve_weth)`. -/
def getV2PriceWeth (env : Env) (pool_address : String) : Except String JsNum :=
  match env.token0 pool_address, env.getReserves pool_address with
  | .ok token0, .ok (reserve0, reserve1) =>
    let isToken0 : Bool := token0 != WETH_ADDRESS
    let reserve_token : ℚ := if isToken0 then reserve0 else reserve1
    let reserve_weth : ℚ := if isToken0 then reserve1 else reserve0
    .ok (JsNum.div (.fin reserve_token) (.fin reserve_weth))
  | .error e, _ => .error ("Failed to get Uniswap V2 price.\n" ++ e)
  | _, .error e => .error ("Failed to get Uniswap V2 price.\n" ++ e)

/-- The `for (const fee of this.feeTiers)` loop of `getV3Pool`: probes
`factory.getPool(token, WETH, fee)` per tier, breaking on the first result
`!== ZeroAddress`. Returns the loop variable `pair` after the loop (`none`
models the `null` initialiser when the list is empty; when every probe
returned the zero address the final value is that zero address, reported
here as `none` since the post-loop check maps both to `null`) paired with
the list of fees actually probed, in probe order. A rejection propagates
unwrapped (the wrapping happens in `getV3Pool`). -/
def getV3PoolLoop (env : Env) (token : String) : List Nat → Except String (Option String × List Nat)
  | [] => .ok (none, [])
  | fee :: rest =>
    match env.getPool token WETH_ADDRESS fee with
    | .error e => .error e
    | .ok pair =>
      if pair != ZeroAddress then .ok (some pair, [fee])
      else
        match getV3PoolLoop env token rest with
        | .error e => .error e
        | .ok (r, probes) => .ok (r, fee :: probes)

/-- `getV3Pool(token)`: runs the fee-tier loop, then
`if (!pair || pair === ZeroAddress) return null` (JS truthiness: the empty
string is falsy); a rejection is wrapped with the V3 lookup prefix. -/
def getV3Pool (env : Env) (feeTiers : List Nat) (token : String) : Except String (Option String) :=
  match getV3PoolLoop env token feeTiers with
  | .error e => .error ("Failed to get Uniswap V3 pool address.\n" ++ e)
  | .ok (pair, _) =>
    match pair with
    | none => .ok none
    | some p => if p = "" ∨ p = ZeroAddress then .ok none else .ok (some p)

/-- `getV3PriceWeth(pool_address)`: reads `slot0().sqrtPriceX96` and returns
`(Number(sqrtPriceX96) / 2 ** 96) ** 2` (conversion taken exact, see module
header); a rejection is wrapped with the V3 price prefix. -/
def getV3PriceWeth (env : Env) (pool_address : String) : Except String JsNum :=
  match env.slot0 pool_address with
  | .error e => .error ("Failed to get Uniswap V3 price.\n" ++ e)
  | .ok sqrtPriceX96 => .ok (.fin (((sqrtPriceX96 : ℚ) / 2 ^ 96) ^ 2))

/-- The record returned by `getPrice`. -/
structure Quote where
  v2Pool : Option String
  v3Pool : Option String
  v2Price : Option JsNum
  v3Price : Option JsNum
  price_usd : Option JsNum
deriving DecidableEq, Repr

/-- The `if (v2Pool) { v2Price = await this.getV2PriceWeth(v2Pool); price_usd = v2Price * eth_usd; }`
step of `getPrice`: given the discovered V2 pool (`null` and `""` are
falsy), produce the `(v2Price, price_usd)` pair after the branch; both
start as `null`. -/
def applyV2Branch (env : Env) (eth_usd : ℚ) :
    Option String → Except String (Option JsNum × Option JsNum)
  | none => .ok (none, none)
  | some p =>
    if p = "" then .ok (none, none)
    else
      match getV2PriceWeth env p with
      | .error e => .error e
      | .ok v2Price => .ok (some v2Price, some (JsNum.mul v2Price (.fin eth_usd)))

/-- The `if (v3Pool) { v3Price = await this.getV3PriceWeth(v3Pool); price_usd = v3Price * eth_usd; }`
step of `getPrice`: given the `price_usd` left by the V2 branch and the
discovered V3 pool (`null` and `""` are falsy), produce the final
`(v3Price, price_usd)` pair — on a hit the fiat price overwrites the V2
one. -/
def applyV3Branch (env : Env) (eth_usd : ℚ) (usd2 : Option JsNum) :
    Option String → Except String (Option JsNum × Option JsNum)
  | none => .ok (none, usd2)
  | some p =>
    if p = "" then .ok (none, usd2)
    else
      match getV3PriceWeth env p with
      | .error e => .error e
      | .ok v3Price => .ok (some v3Price, some (JsNum.mul v3Price (.fin eth_usd)))

/-- The `try` body of `getPrice(token)`: the three-way fetch (`Promise.all`
of the V2 lookup, V3 lookup and oracle rate: on multiple rejections JS
surfaces the first to settle; this embedding deterministically surfaces the
first in listed order), then the two sequential guarded price-extraction
branches. -/
def getPriceCore (env : Env) (feeTiers : List Nat) (token : String) : Except String Quote :=
  match getV2Pool env token, getV3Pool env feeTiers token, getEthUsdPrice env with
  | .error e, _, _ => .error e
  | _, .error e, _ => .error e
  | _, _, .error e => .error e
  | .ok v2Pool, .ok v3Pool, .ok eth_usd =>
    match applyV2Branch env eth_usd v2Pool with
    | .error e => .error e
    | .ok (v2Price, usd2) =>
      match applyV3Branch env eth_usd usd2 v3Pool with
      | .error e => .error e
      | .ok (v3Price, price_usd) => .ok ⟨v2Pool, v3Pool, v2Price, v3Price, price_usd⟩

/-- `getPrice(token)`: the `try` body, with any rejection re-wrapped by the
outer `catch` with the aggregate failure prefix. -/
def getPrice (env : Env) (feeTiers : List Nat) (token : String) : Except String Quote :=
  match getPriceCore env feeTiers token with
  | .error e => .error ("Failed to get price information.\n" ++ e)
  | .ok q => .ok q

/-! ### Shared helper lemmas -/

/-- An environment stub in which every chain call rejects; concrete test
environments override individual fields. -/
def stubEnv : Env where
  getPair := fun _ _ => .error "stub"
  getPool := fun _ _ _ => .error "stub"
  latestAnswer := .error "stub"
  token0 := fun _ => .error "stub"
  getReserves := fun _ => .error "stub"
  slot0 := fun _ => .error "stub"

/-- Characterisation of the V2 price extraction when both reads decode. -/
theorem getV2PriceWeth_eq (env : Env) (pool t0 : String) (r0 r1 : Nat)
    (h0 : env.token0 pool = .ok t0)
    (hres : env.getReserves pool = .ok (r0, r1)) :
    getV2PriceWeth env pool =
      .ok (JsNum.div (.fin (if t0 = WETH_ADDRESS then (r1 : ℚ) else (r0 : ℚ)))
                     (.fin (if t0 = WETH_ADDRESS then (r0 : ℚ) else (r1 : ℚ)))) := by
  by_cases h : t0 = WETH_ADDRESS <;>
    simp [getV2PriceWeth, h0, hres, h]

/-- Characterisation of the oracle rate when the read decodes. -/
theorem getEthUsdPrice_eq (env : Env) (a : Int)
    (h : env.latestAnswer = .ok a) :
    getEthUsdPrice env = .ok ((a : ℚ) / 10 ^ 8) := by
  simp [getEthUsdPrice, h]

/-- Characterisation of the V3 price extraction when the read decodes. -/
theorem getV3PriceWeth_eq (env : Env) (pool : String) (s : Nat)
    (h : env.slot0 pool = .ok s) :
    getV3PriceWeth env pool = .ok (.fin (((s : ℚ) / 2 ^ 96) ^ 2)) := by
  simp [getV3PriceWeth, h]

/-- Characterisation of the fee-tier probe loop when every probe that can be
reached decodes to `f fee`: the probe trace is the longest zero-address head
of the tier list, extended by the first hit when one exists, and the result
is that first hit. -/
theorem getV3PoolLoop_eq (env : Env) (token : String) (f : Nat → String)
    (tiers : List Nat)
    (hok : ∀ fee ∈ tiers, env.getPool token WETH_ADDRESS fee = .ok (f fee)) :
    getV3PoolLoop env token tiers =
      .ok (match tiers.dropWhile (fun fee => f fee == ZeroAddress) with
           | [] => (none, tiers)
           | hit :: _ =>
             (some (f hit), tiers.takeWhile (fun fee => f fee == ZeroAddress) ++ [hit])) := by
  induction tiers with
  | nil => rfl
  | cons fee rest ih =>
    have hfee : env.getPool token WETH_ADDRESS fee = .ok (f fee) :=
      hok fee (List.mem_cons_self _ _)
    have hrest : ∀ g ∈ rest, env.getPool token WETH_ADDRESS g = .ok (f g) :=
      fun g hg => hok g (List.mem_cons_of_mem _ hg)
    by_cases h : f fee = ZeroAddress
    · rw [getV3PoolLoop, hfee, ih hrest]
      simp only [List.dropWhile, List.takeWhile, h, beq_self_eq_true, cond_true, bne_self_eq_false,
        Bool.false_eq_true, if_false]
      cases hdw : rest.dropWhile (fun g => f g == ZeroAddress) <;> simp [hdw]
    · rw [getV3PoolLoop, hfee]
      simp only [List.dropWhile, List.takeWhile]
      have hbeq : (f fee == ZeroAddress) = false := beq_eq_false_iff_ne.mpr h
      simp [hbeq, bne, h]

/-- A pool address returned by `getV2Pool` is the factory's answer and is
not the zero address. -/
theorem getV2Pool_ok_some (env : Env) (token p : String)
    (h : getV2Pool env token = .ok (some p)) :
    env.getPair token WETH_ADDRESS = .ok p ∧ p ≠ ZeroAddress := by
  unfold getV2Pool at h
  cases hp : env.getPair token WETH_ADDRESS with
  | error e => rw [hp] at h; exact absurd h (by simp)
  | ok pool =>
    rw [hp] at h
    by_cases hz : pool = ZeroAddress
    · simp [hz] at h
    · simp [hz] at h
      subst h
      exact ⟨rfl, hz⟩

/-- A pool address returned by `getV3Pool` survived the post-loop truthiness
and zero-address filter. -/
theorem getV3Pool_ok_some (env : Env) (feeTiers : List Nat) (token p : String)
    (h : getV3Pool env feeTiers token = .ok (some p)) :
    p ≠ "" ∧ p ≠ ZeroAddress := by
  unfold getV3Pool at h
  cases hl : getV3PoolLoop env token feeTiers with
  | error e => rw [hl] at h; exact absurd h (by simp)
  | ok r =>
    rw [hl] at h
    obtain ⟨pair, probes⟩ := r
    cases pair with
    | none => simp at h
    | some p0 =>
      by_cases hz : p0 = "" ∨ p0 = ZeroAddress
      · simp [hz] at h
      · push_neg at hz
        simp [hz.1, hz.2] at h
        subst h
        exact hz

/-- Reduction of `getPriceCore` when the V2 pool lookup rejects. -/
theorem getPriceCore_errV2 (env : Env) (feeTiers : List Nat) (token e : String)
    (hc2 : getV2Pool env token = .error e) :
    getPriceCore env feeTiers token = .error e := by
  unfold getPriceCore
  rw [hc2]
  cases getV3Pool env feeTiers token <;> cases getEthUsdPrice env <;> rfl

/-- Reduction of `getPriceCore` when the V2 lookup succeeds but the V3 pool
lookup rejects. -/
theorem getPriceCore_errV3 (env : Env) (feeTiers : List Nat) (token e : String)
    (v2P : Option String)
    (hc2 : getV2Pool env token = .ok v2P)
    (hc3 : getV3Pool env feeTiers token = .error e) :
    getPriceCore env feeTiers token = .error e := by
  unfold getPriceCore
  rw [hc2, hc3]
  cases getEthUsdPrice env <;> rfl

/-- Reduction of `getPriceCore` when all three initial fetches succeed. -/
theorem getPriceCore_ok (env : Env) (feeTiers : List Nat) (token : String)
    (v2P v3P : Option String) (rate : ℚ)
    (hc2 : getV2Pool env token = .ok v2P)
    (hc3 : getV3Pool env feeTiers token = .ok v3P)
    (hr : getEthUsdPrice env = .ok rate) :
    getPriceCore env feeTiers token =
      match applyV2Branch env rate v2P with
      | .error e => .error e
      | .ok (v2Price, usd2) =>
        match applyV3Branch env rate usd2 v3P with
        | .error e => .error e
        | .ok (v3Price, price_usd) => .ok ⟨v2P, v3P, v2Price, v3Price, price_usd⟩ := by
  unfold getPriceCore
  rw [hc2, hc3, hr]

/-! ### Claim theorems -/

/-- Concrete environment for C5: `token0` is exactly the configured
reference-asset address and the reserves are `(1000, 4)`. -/
def envC5 : Env :=
  { stubEnv with
    token0 := fun _ => .ok WETH_ADDRESS
    getReserves := fun _ => .ok (1000, 4) }

/-- C5: `getV2PriceWeth` selects the reference-asset reserve by exact
(case-sensitive) string comparison of the pool's `token0` against the
configured reference-asset address and returns
`tokenReserve / referenceAssetReserve`; with `token0 = WETH_ADDRESS` and
reserves `(1000, 4)` the result is `4 / 1000 = 0.004`. -/
theorem getV2PriceWeth_reserveSelection :
    (∀ (env : Env) (pool t0 : String) (r0 r1 : Nat),
      env.token0 pool = .ok t0 → env.getReserves pool = .ok (r0, r1) →
      getV2PriceWeth env pool =
        .ok (JsNum.div (.fin (if t0 = WETH_ADDRESS then (r1 : ℚ) else (r0 : ℚ)))
                       (.fin (if t0 = WETH_ADDRESS then (r0 : ℚ) else (r1 : ℚ))))) ∧
    getV2PriceWeth envC5 "0xpool" = .ok (.fin ((4 : ℚ) / 1000)) ∧
    (4 : ℚ) / 1000 = 0.004 := by
  refine ⟨fun env pool t0 r0 r1 h0 hres => getV2PriceWeth_eq env pool t0 r0 r1 h0 hres, ?_, by norm_num⟩
  rw [getV2PriceWeth_eq envC5 "0xpool" WETH_ADDRESS 1000 4 rfl rfl]
  norm_num [JsNum.div]

/-- Witness for C5 at `envC5`. -/
theorem getV2PriceWeth_reserveSelection_witness :
    (envC5.token0 "0xpool" = .ok WETH_ADDRESS ∧
     envC5.getReserves "0xpool" = .ok (1000, 4)) ∧
    getV2PriceWeth envC5 "0xpool" =
      .ok (JsNum.div (.fin (if WETH_ADDRESS = WETH_ADDRESS then ((4 : Nat) : ℚ) else ((1000 : Nat) : ℚ)))
                     (.fin (if WETH_ADDRESS = WETH_ADDRESS then ((1000 : Nat) : ℚ) else ((4 : Nat) : ℚ)))) :=
  ⟨⟨rfl, rfl⟩, getV2PriceWeth_reserveSelection.1 envC5 "0xpool" WETH_ADDRESS 1000 4 rfl rfl⟩

/-- Concrete environment for C6: `sqrtPriceX96 = 2 ^ 96`. -/
def envC6 : Env := { stubEnv with slot0 := fun _ => .ok (2 ^ 96) }

/-- C6: `getV3PriceWeth` returns `(sqrtPriceX96 / 2 ^ 96) ^ 2`; for
`sqrtPriceX96 = 2 ^ 96` the result is exactly `1`. -/
theorem getV3PriceWeth_formula :
    (∀ (env : Env) (pool : String) (s : Nat), env.slot0 pool = .ok s →
      getV3PriceWeth env pool = .ok (.fin (((s : ℚ) / 2 ^ 96) ^ 2))) ∧
    getV3PriceWeth envC6 "0xpool" = .ok (.fin 1) := by
  refine ⟨fun env pool s h => getV3PriceWeth_eq env pool s h, ?_⟩
  rw [getV3PriceWeth_eq envC6 "0xpool" (2 ^ 96) rfl]
  norm_num

/-- Witness for C6 at `envC6`. -/
theorem getV3PriceWeth_formula_witness :
    envC6.slot0 "0xpool" = .ok (2 ^ 96) ∧
    getV3PriceWeth envC6 "0xpool" = .ok (.fin ((((2 ^ 96 : Nat) : ℚ) / 2 ^ 96) ^ 2)) :=
  ⟨rfl, getV3PriceWeth_formula.1 envC6 "0xpool" (2 ^ 96) rfl⟩

/-- Concrete environment for C7: raw oracle answer `123456789012`. -/
def envC7 : Env := { stubEnv with latestAnswer := .ok 123456789012 }

/-- C7: `getEthUsdPrice` interprets the raw oracle answer as an 8-decimal
fixed-point value, returning `answer / 10 ^ 8`; a raw answer of
`123456789012` yields `1234.56789012`. -/
theorem getEthUsdPrice_fixedPoint :
    (∀ (env : Env) (a : Int), env.latestAnswer = .ok a →
      getEthUsdPrice env = .ok ((a : ℚ) / 10 ^ 8)) ∧
    getEthUsdPrice envC7 = .ok (1234.56789012 : ℚ) := by
  refine ⟨fun env a h => getEthUsdPrice_eq env a h, ?_⟩
  rw [getEthUsdPrice_eq envC7 123456789012 rfl]
  norm_num

/-- Witness for C7 at a raw answer of `7`. -/
theorem getEthUsdPrice_fixedPoint_witness :
    ({ stubEnv with latestAnswer := .ok 7 } : Env).latestAnswer = .ok 7 ∧
    getEthUsdPrice { stubEnv with latestAnswer := .ok 7 } = .ok (((7 : Int) : ℚ) / 10 ^ 8) :=
  ⟨rfl, getEthUsdPrice_fixedPoint.1 { stubEnv with latestAnswer := .ok 7 } 7 rfl⟩

/-- Concrete environment for C8: the oracle answers `0`. -/
def envC8 : Env := { stubEnv with latestAnswer := .ok 0 }

/-- C8 counterexample: with a raw oracle answer of `0` the call succeeds and
returns the rate `0`, which is not strictly positive — so the returned rate
is not positive regardless of the raw integer. -/
theorem getEthUsdPrice_zeroAnswer :
    getEthUsdPrice envC8 = .ok 0 ∧ ¬ (0 : ℚ) < 0 := by
  constructor
  · rw [getEthUsdPrice_eq envC8 0 rfl]; norm_num
  · exact lt_irrefl 0

/-- C8 (amended): every successful `getEthUsdPrice` call returns the rate
`answer / 10 ^ 8`, which is strictly positive iff the raw oracle answer is
strictly positive (the code performs no positivity check of its own). -/
theorem getEthUsdPrice_pos_iff (env : Env) (a : Int)
    (h : env.latestAnswer = .ok a) :
    ∃ r : ℚ, getEthUsdPrice env = .ok r ∧ (0 < r ↔ 0 < a) := by
  refine ⟨(a : ℚ) / 10 ^ 8, getEthUsdPrice_eq env a h, ?_⟩
  have h8 : (0 : ℚ) < 10 ^ 8 := by norm_num
  rw [lt_div_iff₀ h8, zero_mul, Int.cast_pos]

/-- Witness for the amended C8 at a raw answer of `5`. -/
theorem getEthUsdPrice_pos_iff_witness :
    ({ stubEnv with latestAnswer := .ok 5 } : Env).latestAnswer = .ok 5 ∧
    ∃ r : ℚ, getEthUsdPrice { stubEnv with latestAnswer := .ok 5 } = .ok r ∧ (0 < r ↔ 0 < (5 : Int)) :=
  ⟨rfl, getEthUsdPrice_pos_iff { stubEnv with latestAnswer := .ok 5 } 5 rfl⟩

/-- C9: when the reserve selected as the reference-asset reserve is zero,
`getV2PriceWeth` does not raise: it returns `Infinity` when the token-side
reserve is non-zero and `NaN` when both are zero — a non-finite value either
way. -/
theorem getV2PriceWeth_zeroReserve (env : Env) (pool t0 : String) (r0 r1 : Nat)
    (h0 : env.token0 pool = .ok t0)
    (hres : env.getReserves pool = .ok (r0, r1))
    (hz : (if t0 = WETH_ADDRESS then r0 else r1) = 0) :
    getV2PriceWeth env pool =
      .ok (if (if t0 = WETH_ADDRESS then r1 else r0) = 0 then JsNum.nan else JsNum.inf) ∧
    ∀ v, getV2PriceWeth env pool = .ok v → v.isFinite = false := by
  have heq := getV2PriceWeth_eq env pool t0 r0 r1 h0 hres
  have main : getV2PriceWeth env pool =
      .ok (if (if t0 = WETH_ADDRESS then r1 else r0) = 0 then JsNum.nan else JsNum.inf) := by
    rw [heq]
    by_cases h : t0 = WETH_ADDRESS
    · simp only [h, if_true] at hz ⊢
      subst hz
      by_cases hr : r1 = 0
      · subst hr; simp [JsNum.div]
      · have hpos : (0 : ℚ) < r1 := by exact_mod_cast Nat.pos_of_ne_zero hr
        simp [JsNum.div, hr, hpos]
    · simp only [h, if_false] at hz ⊢
      subst hz
      by_cases hr : r0 = 0
      · subst hr; simp [JsNum.div]
      · have hpos : (0 : ℚ) < r0 := by exact_mod_cast Nat.pos_of_ne_zero hr
        simp [JsNum.div, hr, hpos]
  refine ⟨main, fun v hv => ?_⟩
  rw [main] at hv
  injection hv with hv
  subst hv
  by_cases hc : (if t0 = WETH_ADDRESS then r1 else r0) = 0 <;> simp [hc, JsNum.isFinite]

/-- Concrete environment for the C9 witness: `token0` is the reference
asset, reserves `(0, 7)` — so the reference-asset reserve `reserve0` is 0. -/
def envC9 : Env :=
  { stubEnv with
    token0 := fun _ => .ok WETH_ADDRESS
    getReserves := fun _ => .ok (0, 7) }

/-- Witness for C9 at `envC9`. -/
theorem getV2PriceWeth_zeroReserve_witness :
    (envC9.token0 "0xpool" = .ok WETH_ADDRESS ∧
     envC9.getReserves "0xpool" = .ok (0, 7) ∧
     (if WETH_ADDRESS = WETH_ADDRESS then (0 : Nat) else 7) = 0) ∧
    (getV2PriceWeth envC9 "0xpool" =
      .ok (if (if WETH_ADDRESS = WETH_ADDRESS then (7 : Nat) else 0) = 0 then JsNum.nan else JsNum.inf) ∧
     ∀ v, getV2PriceWeth envC9 "0xpool" = .ok v → v.isFinite = false) :=
  ⟨⟨rfl, rfl, by simp⟩,
   getV2PriceWeth_zeroReserve envC9 "0xpool" WETH_ADDRESS 0 7 rfl rfl (by simp)⟩

/-- C10: with an empty configured fee-tier list, `getV3Pool` performs no
factory probe at all (the probe trace is empty) and returns `null` without
raising — for every environment, even one in which every probe would
reject. -/
theorem getV3Pool_emptyFeeTiers (env : Env) (token : String) :
    getV3PoolLoop env token [] = .ok (none, []) ∧
    getV3Pool env [] token = .ok none :=
  ⟨rfl, rfl⟩

/-- Concrete environment for C2: tier 500 misses (zero address), tier 3000
hits, and any other probe — in particular tier 10000 — would reject, so a
successful overall result certifies that tier 10000 was never probed. -/
def envC2 : Env :=
  { stubEnv with
    getPool := fun _ _ fee =>
      if fee = 3000 then .ok "0xpool3000"
      else if fee = 500 then .ok ZeroAddress
      else .error "probe past the first hit" }

/-- Environment for the C2 witness: every probe decodes to the zero
address. -/
def envC2w : Env := { stubEnv with getPool := fun _ _ _ => .ok ZeroAddress }

/-- C2: the fee-tier lookup probes the factory once per configured tier in
configured order, short-circuits at the first non-zero address and returns
it (the probe trace is the zero-address head of the tier list plus the
first hit); if every probed tier is the zero address the lookup returns
`null`; with tiers `[500, 3000, 10000]` and only tier 3000 having a pool,
exactly the 500 probe then the 3000 probe occur and 10000 is never
probed. -/
theorem getV3Pool_probeOrder :
    (∀ (env : Env) (token : String) (f : Nat → String) (tiers : List Nat),
      (∀ fee ∈ tiers, env.getPool token WETH_ADDRESS fee = .ok (f fee)) →
      getV3PoolLoop env token tiers =
        .ok (match tiers.dropWhile (fun fee => f fee == ZeroAddress) with
             | [] => (none, tiers)
             | hit :: _ =>
               (some (f hit), tiers.takeWhile (fun fee => f fee == ZeroAddress) ++ [hit]))) ∧
    (∀ (env : Env) (token : String) (f : Nat → String) (tiers : List Nat),
      (∀ fee ∈ tiers, env.getPool token WETH_ADDRESS fee = .ok (f fee)) →
      (∀ fee ∈ tiers, f fee = ZeroAddress) →
      getV3Pool env tiers token = .ok none) ∧
    getV3PoolLoop envC2 "0xtok" [500, 3000, 10000] = .ok (some "0xpool3000", [500, 3000]) ∧
    getV3Pool envC2 [500, 3000, 10000] "0xtok" = .ok (some "0xpool3000") := by
  refine ⟨fun env token f tiers hok => getV3PoolLoop_eq env token f tiers hok,
          fun env token f tiers hok hzero => ?_, rfl, rfl⟩
  have h := getV3PoolLoop_eq env token f tiers hok
  have hdw : tiers.dropWhile (fun fee => f fee == ZeroAddress) = [] :=
    List.dropWhile_eq_nil_iff.mpr fun x hx => beq_iff_eq.mpr (hzero x hx)
  rw [hdw] at h
  simp [getV3Pool, h]

/-- Witness for C2: all tiers miss, so the trace is the whole tier list and
the lookup returns `null`. -/
theorem getV3Pool_probeOrder_witness :
    (∀ fee ∈ defaultFeeTiers, envC2w.getPool "0xtok" WETH_ADDRESS fee = .ok ZeroAddress) ∧
    getV3PoolLoop envC2w "0xtok" defaultFeeTiers = .ok (none, defaultFeeTiers) ∧
    getV3Pool envC2w defaultFeeTiers "0xtok" = .ok none :=
  ⟨fun _ _ => rfl,
   getV3Pool_probeOrder.1 envC2w "0xtok" (fun _ => ZeroAddress) defaultFeeTiers (fun _ _ => rfl),
   getV3Pool_probeOrder.2.1 envC2w "0xtok" (fun _ => ZeroAddress) defaultFeeTiers
     (fun _ _ => rfl) (fun _ _ => rfl)⟩

/-- C4: when both pool lookups return `null` and the oracle fetch succeeds,
`getPrice` returns the quote whose pool, price and fiat-price fields are all
`null`, and does not raise. -/
theorem getPrice_noPools (env : Env) (feeTiers : List Nat) (token : String) (rate : ℚ)
    (h2 : getV2Pool env token = .ok none)
    (h3 : getV3Pool env feeTiers token = .ok none)
    (hr : getEthUsdPrice env = .ok rate) :
    getPrice env feeTiers token = .ok ⟨none, none, none, none, none⟩ := by
  simp [getPrice, getPriceCore, applyV2Branch, applyV3Branch, h2, h3, hr]

/-- Environment for the C4 witness: both factories answer the zero address
and the oracle answers `200000000000`. -/
def envC4 : Env :=
  { stubEnv with
    getPair := fun _ _ => .ok ZeroAddress
    getPool := fun _ _ _ => .ok ZeroAddress
    latestAnswer := .ok 200000000000 }

/-- Witness for C4 at `envC4`. -/
theorem getPrice_noPools_witness :
    (getV2Pool envC4 "0xtok" = .ok none ∧
     getV3Pool envC4 defaultFeeTiers "0xtok" = .ok none ∧
     getEthUsdPrice envC4 = .ok ((200000000000 : ℚ) / 10 ^ 8)) ∧
    getPrice envC4 defaultFeeTiers "0xtok" = .ok ⟨none, none, none, none, none⟩ :=
  ⟨⟨rfl, rfl, rfl⟩,
   getPrice_noPools envC4 defaultFeeTiers "0xtok" ((200000000000 : ℚ) / 10 ^ 8) rfl rfl rfl⟩

/-- C3: if any of the three initial fetches (V2 pool lookup, V3 pool
lookup, oracle rate) rejects, `getPrice` rejects with the aggregate prefix
prepended to one of the raised causes' messages — so the aggregate message
contains the underlying cause's message — and returns no quote record at
all. -/
theorem getPrice_fetchFailure (env : Env) (feeTiers : List Nat) (token : String)
    (h : (∃ e, getV2Pool env token = .error e) ∨
         (∃ e, getV3Pool env feeTiers token = .error e) ∨
         (∃ e, getEthUsdPrice env = .error e)) :
    (∃ e, (getV2Pool env token = .error e ∨ getV3Pool env feeTiers token = .error e ∨
           getEthUsdPrice env = .error e) ∧
      getPrice env feeTiers token = .error ("Failed to get price information.\n" ++ e)) ∧
    ∀ q, getPrice env feeTiers token ≠ .ok q := by
  have main : ∃ e, (getV2Pool env token = .error e ∨ getV3Pool env feeTiers token = .error e ∨
      getEthUsdPrice env = .error e) ∧
      getPrice env feeTiers token = .error ("Failed to get price information.\n" ++ e) := by
    cases hc2 : getV2Pool env token with
    | error e => exact ⟨e, Or.inl rfl, by simp [getPrice, getPriceCore, hc2]⟩
    | ok v2P =>
      cases hc3 : getV3Pool env feeTiers token with
      | error e => exact ⟨e, Or.inr (Or.inl rfl), by simp [getPrice, getPriceCore, hc2, hc3]⟩
      | ok v3P =>
        cases hcr : getEthUsdPrice env with
        | error e =>
          exact ⟨e, Or.inr (Or.inr rfl), by simp [getPrice, getPriceCore, hc2, hc3, hcr]⟩
        | ok r =>
          exfalso
          rcases h with ⟨e, he⟩ | ⟨e, he⟩ | ⟨e, he⟩
          · rw [hc2] at he; exact Except.noConfusion he
          · rw [hc3] at he; exact Except.noConfusion he
          · rw [hcr] at he; exact Except.noConfusion he
  refine ⟨main, fun q hq => ?_⟩
  obtain ⟨e, -, herr⟩ := main
  rw [herr] at hq
  exact Except.noConfusion hq

/-- Environment for the C3 witness: both factories answer but the oracle
rejects. -/
def envC3 : Env :=
  { stubEnv with
    getPair := fun _ _ => .ok ZeroAddress
    getPool := fun _ _ _ => .ok ZeroAddress }

/-- Witness for C3 at `envC3`. -/
theorem getPrice_fetchFailure_witness :
    (∃ e, getEthUsdPrice envC3 = .error e) ∧
    ((∃ e, (getV2Pool envC3 "0xtok" = .error e ∨
            getV3Pool envC3 defaultFeeTiers "0xtok" = .error e ∨
            getEthUsdPrice envC3 = .error e) ∧
       getPrice envC3 defaultFeeTiers "0xtok" =
         .error ("Failed to get price information.\n" ++ e)) ∧
     ∀ q, getPrice envC3 defaultFeeTiers "0xtok" ≠ .ok q) :=
  ⟨⟨"Failed to get ETH/USD price from Chainlink oracle.\n" ++ "stub", rfl⟩,
   getPrice_fetchFailure envC3 defaultFeeTiers "0xtok"
     (Or.inr (Or.inr ⟨"Failed to get ETH/USD price from Chainlink oracle.\n" ++ "stub", rfl⟩))⟩

/-- C1: for every token for which `getPrice` succeeds (in an environment
whose V2 factory answer is a well-formed, non-empty address string): if a
V3 pool was found, `price_usd` equals the V3 extraction result times the
oracle rate — even when a V2 pool was also found, i.e. the V3 fiat price
overwrites the V2 one; if only a V2 pool was found, `v2Price` equals the V2
extraction result and `price_usd` equals that result times the oracle
rate. -/
theorem getPrice_precedence (env : Env) (feeTiers : List Nat) (token : String)
    (q : Quote) (rate : ℚ)
    (hq : getPrice env feeTiers token = .ok q)
    (hr : getEthUsdPrice env = .ok rate)
    (hwf : env.getPair token WETH_ADDRESS ≠ .ok "") :
    (∀ p3 pr3, q.v3Pool = some p3 → getV3PriceWeth env p3 = .ok pr3 →
      q.v3Price = some pr3 ∧ q.price_usd = some (JsNum.mul pr3 (.fin rate))) ∧
    (q.v3Pool = none → ∀ p2, q.v2Pool = some p2 →
      ∃ pr2, getV2PriceWeth env p2 = .ok pr2 ∧
        q.v2Price = some pr2 ∧ q.price_usd = some (JsNum.mul pr2 (.fin rate))) := by
  have hcore : getPriceCore env feeTiers token = .ok q := by
    unfold getPrice at hq
    cases hc : getPriceCore env feeTiers token with
    | error e => rw [hc] at hq; exact Except.noConfusion hq
    | ok q' => rw [hc] at hq; injection hq with h; rw [h]
  cases hc2 : getV2Pool env token with
  | error e =>
    rw [getPriceCore_errV2 env feeTiers token e hc2] at hcore
    exact Except.noConfusion hcore
  | ok v2P =>
  cases hc3 : getV3Pool env feeTiers token with
  | error e =>
    rw [getPriceCore_errV3 env feeTiers token e v2P hc2 hc3] at hcore
    exact Except.noConfusion hcore
  | ok v3P =>
  rw [getPriceCore_ok env feeTiers token v2P v3P rate hc2 hc3 hr] at hcore
  rcases v2P with _ | p2
  · rcases v3P with _ | p3
    · -- no pool on either design
      simp only [applyV2Branch, applyV3Branch] at hcore
      injection hcore with h
      subst h
      constructor
      · intro p3 pr3 hp3 _
        exact absurd hp3 (by simp)
      · intro _ p2 hp2
        exact absurd hp2 (by simp)
    · -- only a V3 pool
      obtain ⟨hne3, -⟩ := getV3Pool_ok_some env feeTiers token p3 hc3
      cases he3 : getV3PriceWeth env p3 with
      | error e =>
        simp only [applyV2Branch, applyV3Branch, if_neg hne3, he3] at hcore
        exact Except.noConfusion hcore
      | ok pr3 =>
        simp only [applyV2Branch, applyV3Branch, if_neg hne3, he3] at hcore
        injection hcore with h
        subst h
        constructor
        · intro p3' pr3' hp3 hpr3
          simp only [Option.some.injEq] at hp3
          subst hp3
          rw [he3] at hpr3
          injection hpr3 with h
          subst h
          exact ⟨rfl, rfl⟩
        · intro h3
          exact absurd h3 (by simp)
  · -- a V2 pool was found
    obtain ⟨hpair, -⟩ := getV2Pool_ok_some env token p2 hc2
    have hne2 : p2 ≠ "" := fun h => hwf (h ▸ hpair)
    cases he2 : getV2PriceWeth env p2 with
    | error e =>
      simp only [applyV2Branch, if_neg hne2, he2] at hcore
      exact Except.noConfusion hcore
    | ok pr2 =>
      rcases v3P with _ | p3
      · -- only the V2 pool
        simp only [applyV2Branch, applyV3Branch, if_neg hne2, he2] at hcore
        injection hcore with h
        subst h
        constructor
        · intro p3 pr3 hp3 _
          exact absurd hp3 (by simp)
        · intro _ p2' hp2
          simp only [Option.some.injEq] at hp2
          subst hp2
          exact ⟨pr2, he2, rfl, rfl⟩
      · -- both pools: the V3 result overwrites
        obtain ⟨hne3, -⟩ := getV3Pool_ok_some env feeTiers token p3 hc3
        cases he3 : getV3PriceWeth env p3 with
        | error e =>
          simp only [applyV2Branch, applyV3Branch, if_neg hne2, if_neg hne3, he2, he3] at hcore
          exact Except.noConfusion hcore
        | ok pr3 =>
          simp only [applyV2Branch, applyV3Branch, if_neg hne2, if_neg hne3, he2, he3] at hcore
          injection hcore with h
          subst h
          constructor
          · intro p3' pr3' hp3 hpr3
            simp only [Option.some.injEq] at hp3
            subst hp3
            rw [he3] at hpr3
            injection hpr3 with h
            subst h
            exact ⟨rfl, rfl⟩
          · intro h3
            exact absurd h3 (by simp)

/-- Environment for the C1 witness: both designs have a pool — the V2
pool's `token0` is the reference asset with reserves `(1000, 4)`, the V3
pool (found at tier 500) sits at `sqrtPriceX96 = 2 ^ 96` — and the oracle
answers `200000000000`, i.e. a rate of 2000. -/
def envC1 : Env where
  getPair := fun _ _ => .ok "0xv2pool"
  getPool := fun _ _ fee => if fee = 500 then .ok "0xv3pool" else .ok ZeroAddress
  latestAnswer := .ok 200000000000
  token0 := fun _ => .ok WETH_ADDRESS
  getReserves := fun _ => .ok (1000, 4)
  slot0 := fun _ => .ok (2 ^ 96)

/-- The quote `getPrice` produces on `envC1`: the V2 price is `4 / 1000`,
the V3 price is `1`, and the fiat price is the V3 side's `1 * 2000`. -/
def qC1 : Quote :=
  ⟨some "0xv2pool", some "0xv3pool", some (.fin ((4 : ℚ) / 1000)), some (.fin 1),
   some (.fin 2000)⟩

/-- Witness for C1 at `envC1`: both pools resolve and the fiat price comes
from the V3 extraction. -/
theorem getPrice_precedence_witness :
    (getPrice envC1 defaultFeeTiers "0xtok" = .ok qC1 ∧
     getEthUsdPrice envC1 = .ok (2000 : ℚ) ∧
     envC1.getPair "0xtok" WETH_ADDRESS ≠ .ok "") ∧
    ((∀ p3 pr3, qC1.v3Pool = some p3 → getV3PriceWeth envC1 p3 = .ok pr3 →
        qC1.v3Price = some pr3 ∧ qC1.price_usd = some (JsNum.mul pr3 (.fin 2000))) ∧
     (qC1.v3Pool = none → ∀ p2, qC1.v2Pool = some p2 →
       ∃ pr2, getV2PriceWeth envC1 p2 = .ok pr2 ∧
         qC1.v2Price = some pr2 ∧ qC1.price_usd = some (JsNum.mul pr2 (.fin 2000)))) :=
  by
  have hrr : getEthUsdPrice envC1 = .ok 2000 := by
    rw [getEthUsdPrice_eq envC1 200000000000 rfl]
    norm_num
  have hq : getPrice envC1 defaultFeeTiers "0xtok" = .ok qC1 := by
    have h2 : getV2Pool envC1 "0xtok" = .ok (some "0xv2pool") := by rfl
    have h3 : getV3Pool envC1 defaultFeeTiers "0xtok" = .ok (some "0xv3pool") := by rfl
    have hv2 : getV2PriceWeth envC1 "0xv2pool" = .ok (.fin ((4 : ℚ) / 1000)) := by
      rw [getV2PriceWeth_eq envC1 "0xv2pool" WETH_ADDRESS 1000 4 rfl rfl]
      norm_num [JsNum.div]
    have hv3 : getV3PriceWeth envC1 "0xv3pool" = .ok (.fin 1) := by
      rw [getV3PriceWeth_eq envC1 "0xv3pool" (2 ^ 96) rfl]
      norm_num
    unfold getPrice
    rw [getPriceCore_ok envC1 defaultFeeTiers "0xtok" (some "0xv2pool") (some "0xv3pool") 2000
      h2 h3 hrr]
    simp [applyV2Branch, applyV3Branch, hv2, hv3, qC1, JsNum.mul]
  have hwf : envC1.getPair "0xtok" WETH_ADDRESS ≠ .ok "" := by simp [envC1]
  exact ⟨⟨hq, hrr, hwf⟩,
    getPrice_precedence envC1 defaultFeeTiers "0xtok" qC1 2000 hq hrr hwf⟩

end TokenPrice
